import Mathlib

/-!
Shallow embedding of the project-database repository: the scanner helper
get_github_url, the AST analyzer, the code chunker, the RAG pipeline
orchestrator, and the vector-store adapters (mock and ChromaDB), together
with theorems settling the frozen claims about them.

String primitives are implemented structurally over the character list of a
String, so that every definition reduces inside the kernel.
-/

/-- Whether the first list is an initial segment of the second. -/
def charsBeginWith : List Char → List Char → Bool
  | [], _ => true
  | _ :: _, [] => false
  | p :: ps, c :: cs => p = c && charsBeginWith ps cs

/-- Whether the pattern occurs anywhere in the list (Python in on strings). -/
def charsHavePat (pat : List Char) : List Char → Bool
  | [] => charsBeginWith pat []
  | c :: cs => charsBeginWith pat (c :: cs) || charsHavePat pat cs

/-- Splitting a character list at every occurrence of a separator char. -/
def charsSplitOn (sep : Char) : List Char → List (List Char)
  | [] => [[]]
  | c :: rest =>
    match charsSplitOn sep rest with
    | [] => [[]]
    | g :: gs => if c = sep then [] :: g :: gs else (c :: g) :: gs

/-- Python s.startswith(p). -/
def strBeginsWith (s p : String) : Bool := charsBeginWith p.data s.data

/-- Python s.endswith(p). -/
def strEndsWith (s p : String) : Bool :=
  charsBeginWith p.data (s.data.drop (s.data.length - p.data.length))

/-- Python p in s, substring containment. -/
def containsSub (s pat : String) : Bool := charsHavePat pat.data s.data

/-- Python s.split(sep) for a one-character separator. -/
def strSplitOn (s : String) (sep : Char) : List String :=
  (charsSplitOn sep s.data).map String.mk

/-- Python slicing s[:n] by characters. -/
def strTake (s : String) (n : Nat) : String := String.mk (s.data.take n)

/-- Python slicing s[n:] by characters. -/
def strDrop (s : String) (n : Nat) : String := String.mk (s.data.drop n)

/-- Python slicing s[:-n] by characters. -/
def strDropRight (s : String) (n : Nat) : String :=
  String.mk (s.data.take (s.data.length - n))

/-- Python len(s) by characters. -/
def strLen (s : String) : Nat := s.data.length

/-- Python s.lower(); the analyzed names are ASCII, where the per-character
lowering agrees with the Python string method. -/
def strLower (s : String) : String := String.mk (s.data.map Char.toLower)

/-- Python s.replace(old, new) for one-character old and new. -/
def strReplaceChar (s : String) (old new : Char) : String :=
  String.mk (s.data.map (fun c => if c = old then new else c))

/-- Python str.join: sep.join(parts). -/
def py_join (sep : String) : List String → String
  | [] => ("")
  | [x] => x
  | x :: y :: rest => x ++ sep ++ py_join sep (y :: rest)

/-- Python str.splitlines for newline-separated text (the analyzed sources are
modeled with the newline separator only): splits on it and drops a final
empty piece, so a trailing newline yields no extra empty line. -/
def pySplitlines (s : String) : List String :=
  let parts := strSplitOn s ('\n')
  if parts.getLast? = some ("") then parts.dropLast else parts

/-- Python pathlib Path(p).name: the final component after the last slash. -/
def path_name (filepath : String) : String :=
  (strSplitOn filepath ('/')).getLastD filepath

/-- Python dict lookup by key over an insertion-ordered association list. -/
def dictGet {α : Type} (d : List (String × α)) (k : String) : Option α :=
  match d with
  | [] => none
  | (k1, v) :: rest => if k1 = k then some v else dictGet rest k

/-- Python dict key-membership test. -/
def dictHas {α : Type} (d : List (String × α)) (k : String) : Bool :=
  match d with
  | [] => false
  | (k1, _) :: rest => if k1 = k then true else dictHas rest k

/-- Python in-place update of the value stored under an existing key. -/
def dictUpdate {α : Type} (d : List (String × α)) (k : String) (f : α → α) :
    List (String × α) :=
  match d with
  | [] => []
  | (k1, v) :: rest =>
    if k1 = k then (k1, f v) :: rest else (k1, v) :: dictUpdate rest k f

/-! ## scanner.py: get_github_url

The two regular expressions of get_github_url are compiled by hand.  Both are
anchored at the start (re.match) and at the end (the final dollar, modeled as
end-of-string; the caller strips the remote URL, so no trailing newline
arises).  In both patterns the tail after the fixed prefix must be
user/repo with exactly one slash and both segments non-empty, and the lazy
repo group followed by an optional literal .git group strips one trailing
.git from the repo segment unless nothing would remain before it. -/

/-- The effect of the lazy repo group with the optional .git suffix group:
drops one trailing .git unless the whole segment is exactly .git. -/
def stripGitSuffix (repo : String) : String :=
  if strEndsWith repo (".git") && strLen repo > 4 then strDropRight repo 4 else repo

/-- Splits the part after the host prefix into the two non-empty,
slash-free segments required by both patterns. -/
def splitUserRepo (tail : String) : Option (String × String) :=
  match strSplitOn tail ('/') with
  | [user, repo] => if user != ("") && repo != ("") then some (user, repo) else none
  | _ => none

/-- Hand-compiled match of the HTTPS pattern of get_github_url; the prefix
has 19 characters. -/
def matchHttps (url : String) : Option (String × String) :=
  if strBeginsWith url ("https://github.com/") then
    splitUserRepo (strDrop url 19)
  else none

/-- Hand-compiled match of the SSH pattern of get_github_url; the prefix
has 15 characters. -/
def matchSsh (url : String) : Option (String × String) :=
  if strBeginsWith url ("git@github.com:") then
    splitUserRepo (strDrop url 15)
  else none

/-- scanner.get_github_url: None for a falsy argument, None when the string
does not contain github.com, otherwise the HTTPS pattern is tried first and
the SSH pattern second, each producing the canonical HTTPS URL. -/
def get_github_url (remote_url : Option String) : Option String :=
  match remote_url with
  | none => none
  | some url =>
    if url = ("") then none
    else if !containsSub url ("github.com") then none
    else
      match matchHttps url with
      | some (user, repo) =>
        some (("https://github.com/") ++ user ++ ("/") ++ stripGitSuffix repo)
      | none =>
        match matchSsh url with
        | some (user, repo) =>
          some (("https://github.com/") ++ user ++ ("/") ++ stripGitSuffix repo)
        | none => none

example : get_github_url (some ("git@github.com:acme/widget.git"))
    = some ("https://github.com/acme/widget") := by decide

example : get_github_url (some ("https://gitlab.com/user/repo.git")) = none := by decide

example : get_github_url (some ("https://github.com/user/repo.git"))
    = some ("https://github.com/user/repo") := by decide

/-! ## ast_analyzer.py: CodeAnalyzer

The Python syntax tree is modeled by the statement forms the analyzer
inspects: plain and asynchronous function definitions, class definitions,
plain and from-style imports, and a catch-all for every other statement.
The docstring carried by a definition node stands for the value of
ast.get_docstring(node) or the empty string; base class expressions are
carried already rendered by the helper that turns them into dotted names. -/

inductive PyStmt where
  | functionDef (name : String) (args : List String) (docstring : String)
      (lineno : Nat) (body : List PyStmt)
  | asyncFunctionDef (name : String) (args : List String) (docstring : String)
      (lineno : Nat) (body : List PyStmt)
  | classDef (name : String) (bases : List String) (docstring : String)
      (lineno : Nat) (body : List PyStmt)
  | importPlain (names : List String)
  | importFrom (module : Option String) (names : List String)
  | otherStmt

/-- The child statements a node contributes to the walk queue. -/
def children : PyStmt → List PyStmt
  | PyStmt.functionDef _ _ _ _ body => body
  | PyStmt.asyncFunctionDef _ _ _ _ body => body
  | PyStmt.classDef _ _ _ _ body => body
  | _ => []

theorem sizeOf_children_lt (s : PyStmt) : sizeOf (children s) < 1 + sizeOf s := by
  cases s <;> simp [children] <;> omega

theorem sizeOf_list_append (l1 l2 : List PyStmt) :
    sizeOf (l1 ++ l2) + 1 = sizeOf l1 + sizeOf l2 := by
  induction l1 with
  | nil => simp; omega
  | cons a t ih => simp at ih ⊢; omega

theorem sizeOf_bind_children (q : List PyStmt) :
    sizeOf (q.flatMap children) + q.length ≤ sizeOf q := by
  induction q with
  | nil => simp
  | cons a t ih =>
    have h1 := sizeOf_list_append (children a) (t.flatMap children)
    have h2 := sizeOf_children_lt a
    simp only [List.flatMap_cons, List.length_cons] at h1 ⊢
    simp only [List.cons.sizeOf_spec]
    omega

/-- ast.walk: breadth-first traversal yielding every node of the queued
trees, the queued nodes themselves first. -/
def walk (q : List PyStmt) : List PyStmt :=
  match q with
  | [] => []
  | a :: t => (a :: t) ++ walk ((a :: t).flatMap children)
termination_by sizeOf q
decreasing_by
  have h1 := sizeOf_bind_children (a :: t)
  have h2 : 1 ≤ (a :: t).length := by simp
  simp only [List.cons.sizeOf_spec] at h1 ⊢
  omega

theorem walk_nil : walk [] = [] := by rw [walk]

theorem walk_cons (a : PyStmt) (t : List PyStmt) :
    walk (a :: t) = (a :: t) ++ walk ((a :: t).flatMap children) := by
  rw [walk]

/-- Models isinstance(node, ast.FunctionDef). -/
def isFunctionDefNode : PyStmt → Bool
  | PyStmt.functionDef _ _ _ _ _ => true
  | _ => false

/-- Models isinstance(node, ast.AsyncFunctionDef). -/
def isAsyncFunctionDefNode : PyStmt → Bool
  | PyStmt.asyncFunctionDef _ _ _ _ _ => true
  | _ => false

/-- The name attribute of a definition node. -/
def stmtName : PyStmt → String
  | PyStmt.functionDef name _ _ _ _ => name
  | PyStmt.asyncFunctionDef name _ _ _ _ => name
  | PyStmt.classDef name _ _ _ _ => name
  | _ => ("")

structure FunctionInfo where
  name : String
  args : List String
  docstring : String
  lineno : Nat
  is_async : Bool
deriving DecidableEq

structure ClassInfo where
  name : String
  bases : List String
  methods : List String
  docstring : String
  lineno : Nat
deriving DecidableEq

structure FileAnalysis where
  filepath : String
  functions : List FunctionInfo
  classes : List ClassInfo
  imports : List String
  module_docstring : Option String
  source : String
deriving DecidableEq

/-- CodeAnalyzer._extract_functions: walks the whole tree and keeps exactly
the nodes satisfying isinstance(node, ast.FunctionDef); the is_async field is
computed on the kept node by isinstance(node, ast.AsyncFunctionDef). -/
def extract_functions (tree : List PyStmt) : List FunctionInfo :=
  (walk tree).filterMap (fun node =>
    match node with
    | PyStmt.functionDef name args docstring lineno body =>
      some { name := name, args := args, docstring := docstring, lineno := lineno,
             is_async := isAsyncFunctionDefNode
               (PyStmt.functionDef name args docstring lineno body) }
    | _ => none)

/-- CodeAnalyzer._extract_classes: walks the whole tree and keeps the class
definitions; methods are the names of the direct body members satisfying
isinstance(m, ast.FunctionDef). -/
def extract_classes (tree : List PyStmt) : List ClassInfo :=
  (walk tree).filterMap (fun node =>
    match node with
    | PyStmt.classDef name bases docstring lineno body =>
      some { name := name, bases := bases,
             methods := (body.filter isFunctionDefNode).map stmtName,
             docstring := docstring, lineno := lineno }
    | _ => none)

/-- CodeAnalyzer._extract_imports: walks the whole tree; plain imports
contribute their alias names, from-style imports render module.name with the
module part omitted when node.module is falsy. -/
def extract_imports (tree : List PyStmt) : List String :=
  (walk tree).flatMap (fun node =>
    match node with
    | PyStmt.importPlain names => names
    | PyStmt.importFrom module names =>
      names.map (fun n =>
        if module.getD ("") != ("") then module.getD ("") ++ (".") ++ n else n)
    | _ => [])

/-- A parsed module: the module docstring as returned by ast.get_docstring
on the tree, and the top-level statement list. -/
structure PyModule where
  docstring : Option String
  body : List PyStmt

/-- What the filesystem holds at a path that can be opened: either source
text that parses into a tree, or source whose parse raises SyntaxError. -/
inductive FileContent where
  | parsed (source : String) (tree : PyModule)
  | syntaxErrorSource

/-- The dictionary returned by analyze_file: either the full analysis or the
tagged error dictionary for a syntax error. -/
inductive AnalyzeResult where
  | analysis (fa : FileAnalysis)
  | errorDict (error : String) (filepath : String)

/-- An exception propagating out of analyze_file. -/
inductive PyExn where
  | openFailed
deriving DecidableEq

/-- CodeAnalyzer.analyze_file over a filesystem mapping paths to contents
(none when the file does not exist or cannot be opened).  The open call sits
outside the guarded region, so an unopenable path raises; only SyntaxError
inside the guarded region is converted into the tagged error dictionary. -/
def analyze_file (fs : String → Option FileContent) (filepath : String) :
    Except PyExn AnalyzeResult :=
  match fs filepath with
  | none => Except.error PyExn.openFailed
  | some FileContent.syntaxErrorSource =>
    Except.ok (AnalyzeResult.errorDict ("syntax_error") filepath)
  | some (FileContent.parsed source m) =>
    Except.ok (AnalyzeResult.analysis
      { filepath := filepath,
        functions := extract_functions m.body,
        classes := extract_classes m.body,
        imports := extract_imports m.body,
        module_docstring := m.docstring,
        source := source })

example : extract_functions
    [PyStmt.classDef ("C") [] ("") 1
      [PyStmt.functionDef ("m") [("self")] ("") 2 []]]
    = [{ name := ("m"), args := [("self")], docstring := (""), lineno := 2,
         is_async := false }] := by
  simp [extract_functions, walk_cons, walk_nil, children, isAsyncFunctionDefNode]

example : extract_functions [PyStmt.asyncFunctionDef ("fetch") [("url")] ("") 1 []]
    = [] := by
  simp [extract_functions, walk_cons, walk_nil, children]

/-! ## code_chunker.py: CodeChunker -/

/-- The kind-dependent metadata record attached to a chunk. -/
inductive ChunkMeta where
  | moduleMeta (imports : List String)
  | functionMeta (name : String) (args : List String) (docstring : String)
  | classMeta (name : String) (methods : List String) (bases : List String)
      (docstring : String)
deriving DecidableEq

/-- A chunk dictionary: kind, source file path, fragment name (absent for
module chunks), synthesized content, and the metadata record. -/
structure Chunk where
  type : String
  filepath : String
  name : Option String
  content : String
  metadata : ChunkMeta
deriving DecidableEq

/-- Python truthiness of an optional string: false for None and for the
empty string. -/
def truthyStr (s : Option String) : Bool :=
  match s with
  | some v => v != ("")
  | none => false

/-- CodeChunker._build_module_chunk: the docstring block (a header line
naming the file, the docstring, a closing quote line) is appended only when
the module docstring is truthy; the import block (a label line and the first
10 imports) only when the import list is non-empty; the parts are joined
with newlines. -/
def build_module_chunk (file_info : FileAnalysis) : String :=
  let parts : List String :=
    (if truthyStr file_info.module_docstring then
      [("\"\"\"Module: ") ++ path_name file_info.filepath,
       file_info.module_docstring.getD (""),
       ("\"\"\"")]
     else []) ++
    (if !file_info.imports.isEmpty then
      ("\n# Imports:") :: file_info.imports.take 10
     else [])
  py_join ("\n") parts

/-- CodeChunker._extract_function_source: a header comment naming the
function and its parameters, then the window of up to 20 source lines from
the 0-based index lineno - 1, clipped to end of file. -/
def extract_function_source (source_lines : List String) (func : FunctionInfo) :
    String :=
  let start := func.lineno - 1
  let stop := min (start + 20) source_lines.length
  let lines := (source_lines.drop start).take (stop - start)
  let header := ("# Function: ") ++ func.name ++ ("(")
    ++ py_join (", ") func.args ++ (")\n")
  header ++ py_join ("\n") lines

/-- CodeChunker._extract_class_source: a header comment naming the class,
its bases when non-empty and its methods, then the window of up to 30 source
lines from the 0-based index lineno - 1, clipped to end of file. -/
def extract_class_source (source_lines : List String) (cls : ClassInfo) :
    String :=
  let start := cls.lineno - 1
  let stop := min (start + 30) source_lines.length
  let lines := (source_lines.drop start).take (stop - start)
  let header0 := ("# Class: ") ++ cls.name
  let header1 :=
    if !cls.bases.isEmpty then
      header0 ++ (" (inherits from: ") ++ py_join (", ") cls.bases ++ (")")
    else header0
  let header := header1 ++ ("\n# Methods: ") ++ py_join (", ") cls.methods ++ ("\n")
  header ++ py_join ("\n") lines

/-- The module chunk dictionary built by chunk_file. -/
def moduleChunkOf (file_info : FileAnalysis) : Chunk :=
  { type := ("module"), filepath := file_info.filepath, name := none,
    content := build_module_chunk file_info,
    metadata := ChunkMeta.moduleMeta file_info.imports }

/-- The function chunk dictionary built by chunk_file for one FunctionInfo. -/
def funcChunkOf (file_info : FileAnalysis) (func : FunctionInfo) : Chunk :=
  { type := ("function"), filepath := file_info.filepath, name := some func.name,
    content := extract_function_source (pySplitlines file_info.source) func,
    metadata := ChunkMeta.functionMeta func.name func.args func.docstring }

/-- The class chunk dictionary built by chunk_file for one ClassInfo. -/
def classChunkOf (file_info : FileAnalysis) (cls : ClassInfo) : Chunk :=
  { type := ("class"), filepath := file_info.filepath, name := some cls.name,
    content := extract_class_source (pySplitlines file_info.source) cls,
    metadata := ChunkMeta.classMeta cls.name cls.methods cls.bases cls.docstring }

/-- CodeChunker.chunk_file: an optional module chunk (emitted when the
module docstring or the import list is truthy), then one chunk per extracted
function, then one chunk per extracted class, each built over the split
source lines. -/
def chunk_file (file_info : FileAnalysis) : List Chunk :=
  let moduleChunks : List Chunk :=
    if truthyStr file_info.module_docstring || !file_info.imports.isEmpty then
      [moduleChunkOf file_info]
    else []
  let functionChunks : List Chunk := file_info.functions.map (funcChunkOf file_info)
  let classChunks : List Chunk := file_info.classes.map (classChunkOf file_info)
  moduleChunks ++ functionChunks ++ classChunks

example :
    build_module_chunk
      { filepath := ("pkg/mod.py"), functions := [], classes := [],
        imports := [("os")], module_docstring := none, source := ("") }
    = ("\n# Imports:\nos") := by decide

example :
    chunk_file
      { filepath := ("m.py"), functions := [], classes := [],
        imports := [], module_docstring := some (""), source := ("") }
    = [] := by decide

/-! ## rag_pipeline.py: ReadmeGenerator

The orchestrator is embedded parametrically over the three injected ports:
a state type shared by the adapters and one state-passing operation per port
method.  The run result additionally carries a trace recording every port
invocation in call order; the trace is observation only and feeds nothing
back into the computation. -/

/-- Project metadata dictionary from CodeAnalyzer.analyze_project, in the
fields generate_readme reads. -/
structure ProjectInfo where
  project_name : String
  file_count : Nat
  total_functions : Nat
  total_classes : Nat
  all_imports : List String
deriving DecidableEq

/-- The flattened metadata dictionary built per chunk by _index_chunks. -/
structure FlatMeta where
  chunk_type : String
  filepath : String
  name : String
deriving DecidableEq

/-- One recorded port invocation. -/
inductive PortCall (E K : Type) where
  | createCollection (name : String)
  | embedText (text : String)
  | addChunks (collection : K) (documents : List String) (embeddings : List E)
      (metadatas : List FlatMeta) (ids : List String)
  | queryStore (collection : K) (query_embedding : E) (n_results : Nat)
  | generate (system_prompt : String) (user_prompt : String)

/-- The injected adapters: a shared adapter state and the five port methods
as state-passing functions.  The fixed generation options of the source
(temperature 0.3, num_predict 1000) are adapter-defined controls with no
bearing on the claims and are left to the llm_generate implementation. -/
structure Ports (S E K : Type) where
  state : S
  create_collection : String → S → K × S
  embed : String → S → E × S
  add_chunks : K → List String → List E → List FlatMeta → List String → S → S
  query : K → E → Nat → S → List String × S
  llm_generate : String → String → S → String × S

/-- Result of one generate_readme run: the returned text, the final adapter
state, and the trace of port invocations. -/
structure RunResult (S E K : Type) where
  readme : String
  state : S
  trace : List (PortCall E K)

/-- ReadmeGenerator._create_collection name sanitization: lower-case,
hyphens and dots to underscores, truncated to 63 characters. -/
def sanitize_collection_name (project_name : String) : String :=
  strTake (strReplaceChar (strReplaceChar (strLower project_name) ('-') ('_'))
    ('.') ('_')) 63

/-- The flattened metadata of a chunk: chunk type, file path, and the name
with the module default for chunks without one. -/
def flatten_meta (chunk : Chunk) : FlatMeta :=
  { chunk_type := chunk.type, filepath := chunk.filepath,
    name := chunk.name.getD ("module") }

/-- The accumulator of the _index_chunks loop together with the state after
the loop and the embed calls it performed. -/
structure IndexAcc (S E K : Type) where
  documents : List String
  metadatas : List FlatMeta
  ids : List String
  embeddings : List E
  state : S
  trace : List (PortCall E K)

/-- The per-chunk loop of ReadmeGenerator._index_chunks: collect document
texts, flattened metadata, synthetic ids chunk_i, and one embedding per
chunk computed through the Embedding port. -/
def index_loop {S E K : Type} (embed : String → S → E × S) :
    Nat → S → List Chunk → IndexAcc S E K
  | _, st, [] =>
    { documents := [], metadatas := [], ids := [], embeddings := [],
      state := st, trace := [] }
  | i, st, chunk :: rest =>
    let p := embed chunk.content st
    let acc := index_loop embed (i + 1) p.2 rest
    { documents := chunk.content :: acc.documents,
      metadatas := flatten_meta chunk :: acc.metadatas,
      ids := (("chunk_") ++ toString i) :: acc.ids,
      embeddings := p.1 :: acc.embeddings,
      state := acc.state,
      trace := PortCall.embedText chunk.content :: acc.trace }

/-- ReadmeGenerator._build_project_summary. -/
def build_project_summary (project_info : ProjectInfo) : String :=
  let summary := ("Project: ") ++ project_info.project_name ++ ("\n")
    ++ ("Files: ") ++ toString project_info.file_count ++ ("\n")
    ++ ("Functions: ") ++ toString project_info.total_functions ++ ("\n")
    ++ ("Classes: ") ++ toString project_info.total_classes ++ ("\n")
  if !project_info.all_imports.isEmpty then
    let key_imports := (project_info.all_imports.filter (fun imp =>
      !strBeginsWith imp ("_") && !containsSub imp ("."))).take 10
    if !key_imports.isEmpty then
      summary ++ ("Key dependencies: ") ++ py_join (", ") key_imports ++ ("\n")
    else summary
  else summary

/-- ReadmeGenerator._build_readme_prompt. -/
def build_readme_prompt (summary : String) (context_chunks : List String) :
    String :=
  ("Based on the following Python project information, generate a README.md file.\n\nPROJECT SUMMARY:\n")
  ++ summary
  ++ ("\n\nKEY CODE COMPONENTS:\n")
  ++ py_join ("\n") (context_chunks.enum.map (fun p =>
      ("--- Component ") ++ toString (p.1 + 1) ++ (" ---\n") ++ p.2))
  ++ ("\n\nGenerate a README with these sections:\n1. Project title and brief description (1-2 sentences)\n2. Purpose - What problem does this solve?\n3. Features - Key capabilities (bullet points)\n4. Installation - How to set it up\n5. Usage - Basic usage example with code\n6. Requirements - Main dependencies\n\nKeep it concise and practical. Focus on what users need to know to understand and use the project.\n")

/-- The fixed system instruction passed to the Generation port. -/
def system_prompt_text : String :=
  ("You are a technical documentation expert. Generate clear, concise README files for Python projects.")

/-- The fixed literal retrieval query of step 4 of generate_readme. -/
def retrieval_query : String :=
  ("main functionality entry point purpose usage")

/-- ReadmeGenerator._generate_empty_project_readme. -/
def generate_empty_project_readme (project_info : ProjectInfo) : String :=
  ("# ") ++ project_info.project_name
  ++ ("\n\nThis project currently has no Python files.\n\n## Getting Started\n\nAdd Python files to this project to get started.\n")

/-- ReadmeGenerator.generate_readme: the empty-input terminal branch, then
collection creation, indexing, summary construction, retrieval with the
fixed query and min(5, chunk count) results, prompt assembly, and
generation. -/
def generate_readme {S E K : Type} (ports : Ports S E K)
    (project_info : ProjectInfo) (chunks : List Chunk) : RunResult S E K :=
  if chunks.length = 0 then
    { readme := generate_empty_project_readme project_info,
      state := ports.state, trace := [] }
  else
    let collection_name := sanitize_collection_name project_info.project_name
    let c := ports.create_collection collection_name ports.state
    let acc : IndexAcc S E K := index_loop ports.embed 0 c.2 chunks
    let st2 := ports.add_chunks c.1 acc.documents acc.embeddings acc.metadatas
      acc.ids acc.state
    let project_summary := build_project_summary project_info
    let q := ports.embed retrieval_query st2
    let r := ports.query c.1 q.1 (min 5 chunks.length) q.2
    let prompt := build_readme_prompt project_summary r.1
    let g := ports.llm_generate system_prompt_text prompt r.2
    { readme := g.1, state := g.2,
      trace := PortCall.createCollection collection_name :: acc.trace
        ++ [PortCall.addChunks c.1 acc.documents acc.embeddings acc.metadatas
              acc.ids,
            PortCall.embedText retrieval_query,
            PortCall.queryStore c.1 q.1 (min 5 chunks.length),
            PortCall.generate system_prompt_text prompt] }

/-! ## adapters: mock_adapters.py and chromadb_adapter.py

Embedding vectors are lists of rationals: the mock fake embedding divides a
small non-negative integer by 1000, which the rationals represent exactly,
and no claim depends on embedding values.  The Python hash builtin is an
opaque parameter.  Collection handles are the collection names; the ChromaDB
collection object is identified with its name, and the operations taking the
handle act on the store entry of that name. -/

/-- The per-collection storage record of the mock vector store. -/
structure StoredCollection where
  documents : List String
  embeddings : List (List ℚ)
  metadatas : List FlatMeta
  ids : List String
deriving DecidableEq

/-- The empty record a fresh collection starts with. -/
def emptyStored : StoredCollection :=
  { documents := [], embeddings := [], metadatas := [], ids := [] }

/-- MockVectorStoreAdapter state: the in-memory dictionary of collections
and the current collection name. -/
structure MockVectorStore where
  collections : List (String × StoredCollection)
  current_collection : Option String
deriving DecidableEq

/-- MockVectorStoreAdapter construction: empty dictionary, no current
collection. -/
def freshMockVectorStore : MockVectorStore :=
  { collections := [], current_collection := none }

/-- MockVectorStoreAdapter.create_collection: inserts an empty record only
when the name is not yet present, marks it current, returns the name. -/
def mock_create_collection (st : MockVectorStore) (name : String) :
    String × MockVectorStore :=
  let cols :=
    if !dictHas st.collections name then st.collections ++ [(name, emptyStored)]
    else st.collections
  (name, { collections := cols, current_collection := some name })

/-- MockVectorStoreAdapter.add_chunks: extends the four lists of the stored
record of the given collection.  A missing collection raises KeyError in the
source; the pipeline always creates the collection first, and the missing
case is modeled as leaving the store unchanged. -/
def mock_add_chunks (st : MockVectorStore) (collection : String)
    (documents : List String) (embeddings : List (List ℚ))
    (metadatas : List FlatMeta) (ids : List String) : MockVectorStore :=
  { st with collections := dictUpdate st.collections collection (fun c =>
      { documents := c.documents ++ documents,
        embeddings := c.embeddings ++ embeddings,
        metadatas := c.metadatas ++ metadatas,
        ids := c.ids ++ ids }) }

/-- MockVectorStoreAdapter.query: the first n_results stored documents, with
no similarity ranking.  The KeyError of a missing collection is modeled as
the empty result. -/
def mock_query (st : MockVectorStore) (collection : String) (n_results : Nat) :
    List String :=
  match dictGet st.collections collection with
  | some c => c.documents.take n_results
  | none => []

/-- MockEmbeddingAdapter state: the dimension and the recorded call history. -/
structure MockEmbeddingState where
  embedding_dim : Nat
  call_count : Nat
  embedded_texts : List String
deriving DecidableEq

/-- MockEmbeddingAdapter construction with the given dimension. -/
def freshMockEmbedding (embedding_dim : Nat) : MockEmbeddingState :=
  { embedding_dim := embedding_dim, call_count := 0, embedded_texts := [] }

/-- MockEmbeddingAdapter.embed: records the call, then derives the fake
vector from the text hash; the float division by 1000.0 of values below 1000
is exact and is carried out in the rationals. -/
def mock_embed (hashFn : String → Int) (st : MockEmbeddingState)
    (text : String) : List ℚ × MockEmbeddingState :=
  let st1 := { st with call_count := st.call_count + 1,
                       embedded_texts := st.embedded_texts ++ [text] }
  let text_hash := hashFn text
  let fake_embedding := (List.range st.embedding_dim).map (fun i =>
    (((text_hash + i) % 1000 : ℤ) : ℚ) / 1000)
  (fake_embedding, st1)

/-- MockLLMAdapter state: the canned response and the recorded call
history. -/
structure MockLLMState where
  canned_response : String
  call_count : Nat
  last_system_prompt : Option String
  last_user_prompt : Option String
deriving DecidableEq

/-- MockLLMAdapter construction with a configured canned response. -/
def freshMockLLM (canned_response : String) : MockLLMState :=
  { canned_response := canned_response, call_count := 0,
    last_system_prompt := none, last_user_prompt := none }

/-- MockLLMAdapter.generate: records the call and returns the canned
response. -/
def mock_generate (st : MockLLMState) (system_prompt user_prompt : String) :
    String × MockLLMState :=
  (st.canned_response,
   { st with call_count := st.call_count + 1,
             last_system_prompt := some system_prompt,
             last_user_prompt := some user_prompt })

/-- The combined adapter state when the three mock adapters are injected. -/
structure MockEnvState where
  vs : MockVectorStore
  emb : MockEmbeddingState
  llm : MockLLMState
deriving DecidableEq

/-- The Ports record wiring the three mock adapters. -/
def mockPorts (hashFn : String → Int) (st : MockEnvState) :
    Ports MockEnvState (List ℚ) String :=
  { state := st,
    create_collection := fun name s =>
      let p := mock_create_collection s.vs name
      (p.1, { s with vs := p.2 }),
    embed := fun text s =>
      let p := mock_embed hashFn s.emb text
      (p.1, { s with emb := p.2 }),
    add_chunks := fun coll docs embs metas ids s =>
      { s with vs := mock_add_chunks s.vs coll docs embs metas ids },
    query := fun coll _ n s => (mock_query s.vs coll n, s),
    llm_generate := fun sys usr s =>
      let p := mock_generate s.llm sys usr
      (p.1, { s with llm := p.2 }) }

/-- ChromaDBAdapter state: the client collections by name. -/
structure ChromaStore where
  collections : List (String × StoredCollection)
deriving DecidableEq

/-- A fresh ChromaDB client with no collections for the database path. -/
def freshChromaStore : ChromaStore := { collections := [] }

/-- ChromaDBAdapter.create_collection: deletes an existing collection of the
name (ignoring the error when none exists) and creates a fresh one. -/
def chroma_create_collection (st : ChromaStore) (name : String) :
    String × ChromaStore :=
  (name, { collections :=
    (st.collections.filter (fun p => p.1 != name)) ++ [(name, emptyStored)] })

/-- ChromaDBAdapter.add_chunks: collection.add appends the four parallel
lists to the collection of the handle. -/
def chroma_add_chunks (st : ChromaStore) (collection : String)
    (documents : List String) (embeddings : List (List ℚ))
    (metadatas : List FlatMeta) (ids : List String) : ChromaStore :=
  { collections := dictUpdate st.collections collection (fun c =>
      { documents := c.documents ++ documents,
        embeddings := c.embeddings ++ embeddings,
        metadatas := c.metadatas ++ metadatas,
        ids := c.ids ++ ids }) }

/-- ChromaDBAdapter.query: the similarity ranking happens inside the
external database and does not modify the store; the claims settled here
never depend on which documents come back, so the first n_results stored
documents stand in for the ranked result. -/
def chroma_query (st : ChromaStore) (collection : String) (n_results : Nat) :
    List String :=
  match dictGet st.collections collection with
  | some c => c.documents.take n_results
  | none => []

/-- The combined adapter state when the ChromaDB vector store is injected
together with the mock embedding and generation adapters. -/
structure ChromaEnvState where
  vs : ChromaStore
  emb : MockEmbeddingState
  llm : MockLLMState
deriving DecidableEq

/-- The Ports record wiring the ChromaDB vector store with the mock
embedding and generation adapters. -/
def chromaPorts (hashFn : String → Int) (st : ChromaEnvState) :
    Ports ChromaEnvState (List ℚ) String :=
  { state := st,
    create_collection := fun name s =>
      let p := chroma_create_collection s.vs name
      (p.1, { s with vs := p.2 }),
    embed := fun text s =>
      let p := mock_embed hashFn s.emb text
      (p.1, { s with emb := p.2 }),
    add_chunks := fun coll docs embs metas ids s =>
      { s with vs := chroma_add_chunks s.vs coll docs embs metas ids },
    query := fun coll _ n s => (chroma_query s.vs coll n, s),
    llm_generate := fun sys usr s =>
      let p := mock_generate s.llm sys usr
      (p.1, { s with llm := p.2 }) }

/-! ## Helper lemmas -/

theorem strLen_append (a b : String) : strLen (a ++ b) = strLen a + strLen b := by
  cases a with
  | mk d1 =>
    cases b with
    | mk d2 => simp [strLen, String.append]

theorem py_join_head_len (sep x : String) (l : List String) :
    strLen x ≤ strLen (py_join sep (x :: l)) := by
  cases l with
  | nil => simp [py_join]
  | cons y rest => simp [py_join, strLen_append]; omega

theorem ne_empty_of_strLen_pos {s : String} (h : 0 < strLen s) : s ≠ ("") := by
  intro he
  rw [he] at h
  simp [strLen] at h

theorem bne_empty_of_strLen_pos {s : String} (h : 0 < strLen s) :
    (s != ("")) = true := by
  exact bne_iff_ne.mpr (ne_empty_of_strLen_pos h)

theorem filter_map_const_true {α β : Type} (f : α → β) (p : β → Bool)
    (l : List α) (h : ∀ a, p (f a) = true) : (l.map f).filter p = l.map f := by
  induction l with
  | nil => rfl
  | cons a t ih => simp [List.filter, h a, ih]

theorem filter_map_const_false {α β : Type} (f : α → β) (p : β → Bool)
    (l : List α) (h : ∀ a, p (f a) = false) : (l.map f).filter p = [] := by
  induction l with
  | nil => rfl
  | cons a t ih => simp [List.filter, h a, ih]

theorem index_loop_documents {S E K : Type} (embed : String → S → E × S) :
    ∀ (chunks : List Chunk) (i : Nat) (st : S),
      (index_loop (K := K) embed i st chunks).documents
        = chunks.map (fun c => c.content) := by
  intro chunks
  induction chunks with
  | nil => intro i st; rfl
  | cons c t ih => intro i st; simp [index_loop, ih]

theorem index_loop_metadatas {S E K : Type} (embed : String → S → E × S) :
    ∀ (chunks : List Chunk) (i : Nat) (st : S),
      (index_loop (K := K) embed i st chunks).metadatas
        = chunks.map flatten_meta := by
  intro chunks
  induction chunks with
  | nil => intro i st; rfl
  | cons c t ih => intro i st; simp [index_loop, ih]

theorem index_loop_ids {S E K : Type} (embed : String → S → E × S) :
    ∀ (chunks : List Chunk) (i : Nat) (st : S),
      (index_loop (K := K) embed i st chunks).ids
        = (List.range chunks.length).map (fun k => ("chunk_") ++ toString (i + k)) := by
  intro chunks
  induction chunks with
  | nil => intro i st; rfl
  | cons c t ih =>
    intro i st
    simp only [index_loop, ih, List.length_cons, List.range_succ_eq_map,
      List.map_cons, List.map_map]
    refine List.cons_eq_cons.mpr ⟨by simp, ?_⟩
    apply List.map_congr_left
    intro k _
    simp only [Function.comp]
    congr 2
    omega

theorem index_loop_embeddings_len {S E K : Type} (embed : String → S → E × S) :
    ∀ (chunks : List Chunk) (i : Nat) (st : S),
      (index_loop (K := K) embed i st chunks).embeddings.length = chunks.length := by
  intro chunks
  induction chunks with
  | nil => intro i st; rfl
  | cons c t ih => intro i st; simp [index_loop, ih]

theorem index_loop_trace {S E K : Type} (embed : String → S → E × S) :
    ∀ (chunks : List Chunk) (i : Nat) (st : S),
      (index_loop (K := K) embed i st chunks).trace
        = chunks.map (fun c => PortCall.embedText (E := E) (K := K) c.content) := by
  intro chunks
  induction chunks with
  | nil => intro i st; rfl
  | cons c t ih => intro i st; simp [index_loop, ih]

theorem index_loop_state_proj {S E K V : Type} (embed : String → S → E × S)
    (f : S → V) (hf : ∀ t s, f (embed t s).2 = f s) :
    ∀ (chunks : List Chunk) (i : Nat) (st : S),
      f ((index_loop (K := K) embed i st chunks).state) = f st := by
  intro chunks
  induction chunks with
  | nil => intro i st; rfl
  | cons c t ih =>
    intro i st
    simp only [index_loop]
    rw [ih, hf]

theorem mock_run_vs (hashFn : String → Int) (st : MockEnvState)
    (pinfo : ProjectInfo) (chunks : List Chunk) (h : chunks ≠ []) :
    ∃ embs : List (List ℚ), embs.length = chunks.length ∧
      (generate_readme (mockPorts hashFn st) pinfo chunks).state.vs =
        mock_add_chunks
          (mock_create_collection st.vs (sanitize_collection_name pinfo.project_name)).2
          (sanitize_collection_name pinfo.project_name)
          (chunks.map (fun c => c.content))
          embs
          (chunks.map flatten_meta)
          ((List.range chunks.length).map (fun k => ("chunk_") ++ toString k)) := by
  have hlen : ¬ chunks.length = 0 := by
    intro hc
    exact h (List.length_eq_zero.mp hc)
  refine ⟨(index_loop (K := String) ((mockPorts hashFn st).embed) 0
      { st with vs := (mock_create_collection st.vs
          (sanitize_collection_name pinfo.project_name)).2 } chunks).embeddings,
    index_loop_embeddings_len _ chunks 0 _, ?_⟩
  simp only [generate_readme, if_neg hlen, mockPorts]
  rw [index_loop_documents, index_loop_metadatas, index_loop_ids,
    index_loop_state_proj _ MockEnvState.vs (fun t s => rfl)]
  simp [Nat.zero_add, mock_create_collection]

theorem chroma_run_vs (hashFn : String → Int) (st : ChromaEnvState)
    (pinfo : ProjectInfo) (chunks : List Chunk) (h : chunks ≠ []) :
    ∃ embs : List (List ℚ), embs.length = chunks.length ∧
      (generate_readme (chromaPorts hashFn st) pinfo chunks).state.vs =
        chroma_add_chunks
          (chroma_create_collection st.vs (sanitize_collection_name pinfo.project_name)).2
          (sanitize_collection_name pinfo.project_name)
          (chunks.map (fun c => c.content))
          embs
          (chunks.map flatten_meta)
          ((List.range chunks.length).map (fun k => ("chunk_") ++ toString k)) := by
  have hlen : ¬ chunks.length = 0 := by
    intro hc
    exact h (List.length_eq_zero.mp hc)
  refine ⟨(index_loop (K := String) ((chromaPorts hashFn st).embed) 0
      { st with vs := (chroma_create_collection st.vs
          (sanitize_collection_name pinfo.project_name)).2 } chunks).embeddings,
    index_loop_embeddings_len _ chunks 0 _, ?_⟩
  simp only [generate_readme, if_neg hlen, chromaPorts]
  rw [index_loop_documents, index_loop_metadatas, index_loop_ids,
    index_loop_state_proj _ ChromaEnvState.vs (fun t s => rfl)]
  simp [Nat.zero_add, chroma_create_collection]

/-- The texts passed to the Embedding port, extracted from a trace in call
order. -/
def embedCalls {E K : Type} (trace : List (PortCall E K)) : List String :=
  trace.filterMap (fun e =>
    match e with
    | PortCall.embedText t => some t
    | _ => none)

/-- The add_chunks invocations recorded in a trace, with their argument
arrays. -/
def addChunksEvents {E K : Type} (trace : List (PortCall E K)) :
    List (K × List String × List E × List FlatMeta × List String) :=
  trace.filterMap (fun e =>
    match e with
    | PortCall.addChunks c d em m i => some (c, d, em, m, i)
    | _ => none)

theorem embedCalls_map_embedText {E K : Type} (chunks : List Chunk) :
    embedCalls (chunks.map (fun c => PortCall.embedText (E := E) (K := K) c.content))
      = chunks.map (fun c => c.content) := by
  induction chunks with
  | nil => rfl
  | cons c t ih => simpa [embedCalls, List.filterMap_cons] using ih

theorem addChunksEvents_map_embedText {E K : Type} (chunks : List Chunk) :
    addChunksEvents
      (chunks.map (fun c => PortCall.embedText (E := E) (K := K) c.content)) = [] := by
  induction chunks with
  | nil => rfl
  | cons c t ih => simp [addChunksEvents, List.filterMap_cons]

theorem addChunksEvents_nil {E K : Type} :
    addChunksEvents ([] : List (PortCall E K)) = [] := rfl

theorem addChunksEvents_append {E K : Type} (t1 t2 : List (PortCall E K)) :
    addChunksEvents (t1 ++ t2) = addChunksEvents t1 ++ addChunksEvents t2 := by
  simp [addChunksEvents, List.filterMap_append]

theorem addChunksEvents_cons_create {E K : Type} (n : String)
    (t : List (PortCall E K)) :
    addChunksEvents (PortCall.createCollection n :: t) = addChunksEvents t := by
  simp [addChunksEvents, List.filterMap_cons]

theorem addChunksEvents_cons_embed {E K : Type} (s : String)
    (t : List (PortCall E K)) :
    addChunksEvents (PortCall.embedText s :: t) = addChunksEvents t := by
  simp [addChunksEvents, List.filterMap_cons]

theorem addChunksEvents_cons_add {E K : Type} (c : K) (d : List String)
    (em : List E) (m : List FlatMeta) (i : List String)
    (t : List (PortCall E K)) :
    addChunksEvents (PortCall.addChunks c d em m i :: t)
      = (c, d, em, m, i) :: addChunksEvents t := by
  simp [addChunksEvents, List.filterMap_cons]

theorem addChunksEvents_cons_query {E K : Type} (c : K) (qe : E) (n : Nat)
    (t : List (PortCall E K)) :
    addChunksEvents (PortCall.queryStore c qe n :: t) = addChunksEvents t := by
  simp [addChunksEvents, List.filterMap_cons]

theorem addChunksEvents_cons_generate {E K : Type} (sp up : String)
    (t : List (PortCall E K)) :
    addChunksEvents (PortCall.generate sp up :: t) = addChunksEvents t := by
  simp [addChunksEvents, List.filterMap_cons]

theorem append3_ne_empty (a b c : String) (ha : 0 < strLen a) :
    a ++ b ++ c ≠ ("") := by
  apply ne_empty_of_strLen_pos
  rw [strLen_append, strLen_append]
  omega

/-! ## Claims -/

/-- C2: the claim states that analyze_file surfaces every function definition
in the tree, asynchronous ones included, with the is_async flag true exactly
on those.  The extraction keeps only nodes satisfying
isinstance(node, ast.FunctionDef), which an ast.AsyncFunctionDef node never
does, so an async def is not surfaced at all and is_async is false on every
surfaced entry: a module holding one async def yields no FunctionInfo, and a
module holding a plain def and an async def yields only the plain one. -/
theorem claim_C2 :
    extract_functions [PyStmt.asyncFunctionDef ("fetch") [("url")] ("") 1 []] = []
    ∧ extract_functions
        [PyStmt.functionDef ("f") [] ("") 1 [],
         PyStmt.asyncFunctionDef ("g") [] ("") 2 []]
      = [{ name := ("f"), args := [], docstring := (""), lineno := 1,
           is_async := false }] := by
  constructor
  · simp [extract_functions, walk_cons, walk_nil, children]
  · simp [extract_functions, walk_cons, walk_nil, children, isAsyncFunctionDefNode]

/-- C4: for every project_info and the empty chunk sequence, generate_readme
returns a non-empty string containing the display name of the project, and
no port method is invoked: the recorded trace is empty. -/
theorem claim_C4 {S E K : Type} (ports : Ports S E K)
    (project_info : ProjectInfo) :
    (generate_readme ports project_info []).trace = []
    ∧ (generate_readme ports project_info []).readme ≠ ("")
    ∧ ∃ a b : String, (generate_readme ports project_info []).readme
        = a ++ project_info.project_name ++ b := by
  refine ⟨rfl, ?_, ⟨("# "),
    ("\n\nThis project currently has no Python files.\n\n## Getting Started\n\nAdd Python files to this project to get started.\n"),
    rfl⟩⟩
  exact append3_ne_empty ("# ") project_info.project_name
    ("\n\nThis project currently has no Python files.\n\n## Getting Started\n\nAdd Python files to this project to get started.\n")
    (by decide)

/-- C9: get_github_url maps the SSH remote for acme/widget to the canonical
HTTPS URL, and any remote URL whose host is not github.com is mapped to
none: such a URL starts with neither anchored github.com pattern prefix, and
every URL starting with neither prefix fails both anchored patterns and
falls through to none. -/
theorem claim_C9 :
    get_github_url (some ("git@github.com:acme/widget.git"))
      = some ("https://github.com/acme/widget")
    ∧ ∀ url : String,
        strBeginsWith url ("https://github.com/") = false →
        strBeginsWith url ("git@github.com:") = false →
        get_github_url (some url) = none := by
  refine ⟨by decide, ?_⟩
  intro url h1 h2
  by_cases he : url = ("")
  · simp [get_github_url, he]
  · simp [get_github_url, he, matchHttps, matchSsh, h1, h2]

/-- Witness for C9 at the gitlab.com URL of the claim. -/
theorem claim_C9_witness :
    strBeginsWith ("https://gitlab.com/user/repo.git") ("https://github.com/") = false
    ∧ strBeginsWith ("https://gitlab.com/user/repo.git") ("git@github.com:") = false
    ∧ get_github_url (some ("https://gitlab.com/user/repo.git")) = none :=
  ⟨by decide, by decide,
   claim_C9.2 ("https://gitlab.com/user/repo.git") (by decide) (by decide)⟩

/-- C10: analyze_file converts only syntax errors into the tagged error
dictionary; a path that cannot be opened raises out of the call, because the
open happens outside the guarded region, and every tagged error result names
the syntax_error tag, carries the path, and stems from a file whose parse
raises SyntaxError. -/
theorem claim_C10 (fs : String → Option FileContent) (filepath : String) :
    (fs filepath = none → analyze_file fs filepath = Except.error PyExn.openFailed)
    ∧ (∀ e q, analyze_file fs filepath = Except.ok (AnalyzeResult.errorDict e q) →
        e = ("syntax_error") ∧ q = filepath
          ∧ fs filepath = some FileContent.syntaxErrorSource) := by
  constructor
  · intro hfs
    simp [analyze_file, hfs]
  · intro e q hok
    cases hfs : fs filepath with
    | none => simp [analyze_file, hfs] at hok
    | some content =>
      cases content with
      | parsed src m => simp [analyze_file, hfs] at hok
      | syntaxErrorSource =>
        simp [analyze_file, hfs] at hok
        exact ⟨hok.1.symm, hok.2.symm, rfl⟩

/-- Witness for C10: an unopenable path makes analyze_file raise. -/
theorem claim_C10_witness :
    ((fun _ : String => (none : Option FileContent)) ("missing.py") = none)
    ∧ analyze_file (fun _ => none) ("missing.py")
        = Except.error PyExn.openFailed :=
  ⟨rfl, (claim_C10 (fun _ => none) ("missing.py")).1 rfl⟩

/-- C5: for every non-empty chunk sequence and any injected adapters, a run
of generate_readme calls the Embedding port once per chunk in sequence
order, on the chunk contents, plus once on the fixed retrieval query, for
exactly length + 1 calls. -/
theorem claim_C5 {S E K : Type} (ports : Ports S E K)
    (project_info : ProjectInfo) (chunks : List Chunk) (h : chunks ≠ []) :
    embedCalls (generate_readme ports project_info chunks).trace
      = chunks.map (fun c => c.content) ++ [retrieval_query]
    ∧ (embedCalls (generate_readme ports project_info chunks).trace).length
      = chunks.length + 1 := by
  have hlen : ¬ chunks.length = 0 := by
    intro hc
    exact h (List.length_eq_zero.mp hc)
  have h1 : embedCalls (generate_readme ports project_info chunks).trace
      = chunks.map (fun c => c.content) ++ [retrieval_query] := by
    simp only [generate_readme, if_neg hlen]
    rw [index_loop_trace]
    simp only [embedCalls, List.filterMap_cons, List.filterMap_append]
    rw [show (chunks.map (fun c => PortCall.embedText (E := E) (K := K) c.content)).filterMap
        (fun e => match e with | PortCall.embedText t => some t | _ => none)
      = embedCalls (chunks.map (fun c => PortCall.embedText (E := E) (K := K) c.content))
      from rfl]
    rw [embedCalls_map_embedText]
    simp
  refine ⟨h1, ?_⟩
  rw [h1]
  simp

/-- Witness for C5 at a one-chunk run over the mock adapters. -/
theorem claim_C5_witness :
    (([{ type := ("function"), filepath := ("f.py"), name := some ("f"),
         content := ("def f(): pass"),
         metadata := ChunkMeta.functionMeta ("f") [] ("") }] : List Chunk) ≠ [])
    ∧ embedCalls (generate_readme
        (mockPorts (fun _ => 0)
          { vs := freshMockVectorStore, emb := freshMockEmbedding 2,
            llm := freshMockLLM ("readme") })
        { project_name := ("p"), file_count := 1, total_functions := 1,
          total_classes := 0, all_imports := [] }
        [{ type := ("function"), filepath := ("f.py"), name := some ("f"),
           content := ("def f(): pass"),
           metadata := ChunkMeta.functionMeta ("f") [] ("") }]).trace
      = [("def f(): pass"), retrieval_query] := by
  constructor
  · simp
  · have := (claim_C5
      (mockPorts (fun _ => 0)
        { vs := freshMockVectorStore, emb := freshMockEmbedding 2,
          llm := freshMockLLM ("readme") })
      { project_name := ("p"), file_count := 1, total_functions := 1,
        total_classes := 0, all_imports := [] }
      [{ type := ("function"), filepath := ("f.py"), name := some ("f"),
         content := ("def f(): pass"),
         metadata := ChunkMeta.functionMeta ("f") [] ("") }] (by simp)).1
    simpa using this

/-- C6: on a freshly constructed mock vector store, a run of generate_readme
over a non-empty chunk sequence leaves the collection named by the sanitized
project name holding exactly the chunk contents (hence exactly length many
documents), and the trace shows one single add_chunks call whose four
parallel arrays all have the chunk-sequence length, with ids chunk_0 through
chunk_(n-1). -/
theorem claim_C6 (hashFn : String → Int) (dim : Nat) (canned : String)
    (project_info : ProjectInfo) (chunks : List Chunk) (h : chunks ≠ []) :
    Option.map (fun c => c.documents)
        (dictGet (generate_readme (mockPorts hashFn
            { vs := freshMockVectorStore, emb := freshMockEmbedding dim,
              llm := freshMockLLM canned }) project_info chunks).state.vs.collections
          (sanitize_collection_name project_info.project_name))
      = some (chunks.map (fun c => c.content))
    ∧ Option.map (fun c => c.documents.length)
        (dictGet (generate_readme (mockPorts hashFn
            { vs := freshMockVectorStore, emb := freshMockEmbedding dim,
              llm := freshMockLLM canned }) project_info chunks).state.vs.collections
          (sanitize_collection_name project_info.project_name))
      = some chunks.length
    ∧ (addChunksEvents (generate_readme (mockPorts hashFn
          { vs := freshMockVectorStore, emb := freshMockEmbedding dim,
            llm := freshMockLLM canned }) project_info chunks).trace).map
        (fun ev => (ev.1, ev.2.1, ev.2.2.1.length, ev.2.2.2.1, ev.2.2.2.2))
      = [(sanitize_collection_name project_info.project_name,
          chunks.map (fun c => c.content), chunks.length, chunks.map flatten_meta,
          (List.range chunks.length).map (fun k => ("chunk_") ++ toString k))]
    ∧ (chunks.map (fun c => c.content)).length = chunks.length
    ∧ (chunks.map flatten_meta).length = chunks.length
    ∧ ((List.range chunks.length).map (fun k => ("chunk_") ++ toString k)).length
      = chunks.length := by
  have hlen : ¬ chunks.length = 0 := by
    intro hc
    exact h (List.length_eq_zero.mp hc)
  obtain ⟨embs, hel, hvs⟩ := mock_run_vs hashFn
    { vs := freshMockVectorStore, emb := freshMockEmbedding dim,
      llm := freshMockLLM canned } project_info chunks h
  refine ⟨?_, ?_, ?_, by simp, by simp, by simp⟩
  · rw [hvs]
    simp [mock_add_chunks, mock_create_collection, freshMockVectorStore,
      dictHas, dictUpdate, dictGet, emptyStored]
  · rw [hvs]
    simp [mock_add_chunks, mock_create_collection, freshMockVectorStore,
      dictHas, dictUpdate, dictGet, emptyStored]
  · simp only [generate_readme, if_neg hlen, mockPorts]
    simp only [index_loop_trace, index_loop_documents, index_loop_metadatas,
      index_loop_ids]
    simp only [addChunksEvents_cons_create, addChunksEvents_append,
      addChunksEvents_map_embedText, addChunksEvents_cons_add,
      addChunksEvents_cons_embed, addChunksEvents_cons_query,
      addChunksEvents_cons_generate, addChunksEvents_nil]
    simp [mock_create_collection, index_loop_embeddings_len, Nat.zero_add]

/-- Shared concrete project metadata for witnesses and counterexamples. -/
def cexPinfo : ProjectInfo :=
  { project_name := ("p"), file_count := 1, total_functions := 1,
    total_classes := 0, all_imports := [] }

/-- Shared concrete one-function chunk for witnesses and counterexamples. -/
def cexChunk : Chunk :=
  { type := ("function"), filepath := ("f.py"), name := some ("f"),
    content := ("def f(): pass"),
    metadata := ChunkMeta.functionMeta ("f") [] ("") }

/-- Witness for C6 at a one-chunk run of the mock environment. -/
theorem claim_C6_witness :
    (([cexChunk] : List Chunk) ≠ [])
    ∧ (Option.map (fun c => c.documents)
        (dictGet (generate_readme (mockPorts (fun _ => 0)
            { vs := freshMockVectorStore, emb := freshMockEmbedding 1,
              llm := freshMockLLM ("r") }) cexPinfo [cexChunk]).state.vs.collections
          (sanitize_collection_name cexPinfo.project_name))
      = some ([cexChunk].map (fun c => c.content))
    ∧ Option.map (fun c => c.documents.length)
        (dictGet (generate_readme (mockPorts (fun _ => 0)
            { vs := freshMockVectorStore, emb := freshMockEmbedding 1,
              llm := freshMockLLM ("r") }) cexPinfo [cexChunk]).state.vs.collections
          (sanitize_collection_name cexPinfo.project_name))
      = some ([cexChunk] : List Chunk).length
    ∧ (addChunksEvents (generate_readme (mockPorts (fun _ => 0)
          { vs := freshMockVectorStore, emb := freshMockEmbedding 1,
            llm := freshMockLLM ("r") }) cexPinfo [cexChunk]).trace).map
        (fun ev => (ev.1, ev.2.1, ev.2.2.1.length, ev.2.2.2.1, ev.2.2.2.2))
      = [(sanitize_collection_name cexPinfo.project_name,
          [cexChunk].map (fun c => c.content), ([cexChunk] : List Chunk).length,
          [cexChunk].map flatten_meta,
          (List.range ([cexChunk] : List Chunk).length).map
            (fun k => ("chunk_") ++ toString k))]
    ∧ (([cexChunk] : List Chunk).map (fun c => c.content)).length
        = ([cexChunk] : List Chunk).length
    ∧ (([cexChunk] : List Chunk).map flatten_meta).length
        = ([cexChunk] : List Chunk).length
    ∧ ((List.range ([cexChunk] : List Chunk).length).map
        (fun k => ("chunk_") ++ toString k)).length
        = ([cexChunk] : List Chunk).length) :=
  ⟨by simp, claim_C6 (fun _ => 0) 1 ("r") cexPinfo [cexChunk] (by simp)⟩

/-- C1 as stated is false on the mock adapter: the claim demands that after
a second identical generate_readme run the collection holds exactly n = 1
document, but the mock create_collection keeps the existing collection and
the second run appends, leaving 2 documents. -/
theorem claim_C1_counterexample :
    Option.map (fun c => c.documents.length)
        (dictGet (generate_readme (mockPorts (fun _ => 0)
            (generate_readme (mockPorts (fun _ => 0)
              { vs := freshMockVectorStore, emb := freshMockEmbedding 1,
                llm := freshMockLLM ("r") }) cexPinfo [cexChunk]).state)
          cexPinfo [cexChunk]).state.vs.collections ("p"))
      = some 2
    ∧ (2 : Nat) ≠ 1 := by
  constructor
  · rfl
  · decide

/-- C1 amended: replace-not-append holds for the ChromaDB adapter, whose
create_collection drops and recreates the collection, so two identical runs
leave exactly the chunk count; the mock adapter keeps an existing collection
on create_collection, so two identical runs leave twice the chunk count. -/
theorem claim_C1 (hashFn : String → Int) (dim : Nat) (canned : String)
    (project_info : ProjectInfo) (chunks : List Chunk) (h : chunks ≠ []) :
    Option.map (fun c => c.documents.length)
        (dictGet (generate_readme (mockPorts hashFn
            (generate_readme (mockPorts hashFn
              { vs := freshMockVectorStore, emb := freshMockEmbedding dim,
                llm := freshMockLLM canned }) project_info chunks).state)
          project_info chunks).state.vs.collections
          (sanitize_collection_name project_info.project_name))
      = some (2 * chunks.length)
    ∧ Option.map (fun c => c.documents.length)
        (dictGet (generate_readme (chromaPorts hashFn
            (generate_readme (chromaPorts hashFn
              { vs := freshChromaStore, emb := freshMockEmbedding dim,
                llm := freshMockLLM canned }) project_info chunks).state)
          project_info chunks).state.vs.collections
          (sanitize_collection_name project_info.project_name))
      = some chunks.length := by
  constructor
  · obtain ⟨e1, he1, hv1⟩ := mock_run_vs hashFn
      { vs := freshMockVectorStore, emb := freshMockEmbedding dim,
        llm := freshMockLLM canned } project_info chunks h
    obtain ⟨e2, he2, hv2⟩ := mock_run_vs hashFn
      (generate_readme (mockPorts hashFn
        { vs := freshMockVectorStore, emb := freshMockEmbedding dim,
          llm := freshMockLLM canned }) project_info chunks).state
      project_info chunks h
    rw [hv2, hv1]
    simp [mock_add_chunks, mock_create_collection, freshMockVectorStore,
      dictHas, dictUpdate, dictGet, emptyStored, Nat.two_mul]
  · obtain ⟨e1, he1, hv1⟩ := chroma_run_vs hashFn
      { vs := freshChromaStore, emb := freshMockEmbedding dim,
        llm := freshMockLLM canned } project_info chunks h
    obtain ⟨e2, he2, hv2⟩ := chroma_run_vs hashFn
      (generate_readme (chromaPorts hashFn
        { vs := freshChromaStore, emb := freshMockEmbedding dim,
          llm := freshMockLLM canned }) project_info chunks).state
      project_info chunks h
    rw [hv2, hv1]
    simp [chroma_add_chunks, chroma_create_collection, freshChromaStore,
      dictHas, dictUpdate, dictGet, emptyStored, List.filter]

/-- Witness for C1 at a one-chunk run: two mock runs leave 2 documents, two
ChromaDB runs leave 1. -/
theorem claim_C1_witness :
    (([cexChunk] : List Chunk) ≠ [])
    ∧ (Option.map (fun c => c.documents.length)
        (dictGet (generate_readme (mockPorts (fun _ => 0)
            (generate_readme (mockPorts (fun _ => 0)
              { vs := freshMockVectorStore, emb := freshMockEmbedding 1,
                llm := freshMockLLM ("r") }) cexPinfo [cexChunk]).state)
          cexPinfo [cexChunk]).state.vs.collections
          (sanitize_collection_name cexPinfo.project_name))
      = some (2 * ([cexChunk] : List Chunk).length)
    ∧ Option.map (fun c => c.documents.length)
        (dictGet (generate_readme (chromaPorts (fun _ => 0)
            (generate_readme (chromaPorts (fun _ => 0)
              { vs := freshChromaStore, emb := freshMockEmbedding 1,
                llm := freshMockLLM ("r") }) cexPinfo [cexChunk]).state)
          cexPinfo [cexChunk]).state.vs.collections
          (sanitize_collection_name cexPinfo.project_name))
      = some ([cexChunk] : List Chunk).length) :=
  ⟨by simp, claim_C1 (fun _ => 0) 1 ("r") cexPinfo [cexChunk] (by simp)⟩

/-- A file analysis with imports but no module docstring, for C3. -/
def c3_file : FileAnalysis :=
  { filepath := ("pkg/mod.py"), functions := [], classes := [],
    imports := [("os")], module_docstring := none, source := ("") }

/-- A file analysis with a docstring, for the C3 witness. -/
def c3_file_with_doc : FileAnalysis :=
  { filepath := ("pkg/mod.py"), functions := [], classes := [],
    imports := [], module_docstring := some ("Utility helpers."),
    source := ("") }

/-- C3 as stated is false: a module with imports but no docstring gets a
module chunk whose content is just the import block, which does not even
mention the file name, so it does not begin with a header line naming the
file. -/
theorem claim_C3_counterexample :
    (chunk_file c3_file).map (fun c => c.content) = [("\n# Imports:\nos")]
    ∧ containsSub ("\n# Imports:\nos") ("mod.py") = false := by
  constructor
  · rfl
  · decide

/-- C3 amended: the module chunk content concatenates, when the module
docstring is present, a header line naming the file, the docstring and a
closing quote line, followed, when imports are present, by an import label
and up to the first 10 import identifiers; the content begins with the
header line naming the file when the docstring is present (and only the
docstring block carries that header). -/
theorem claim_C3 (fi : FileAnalysis) :
    build_module_chunk fi = py_join ("\n")
      ((if truthyStr fi.module_docstring then
          [("\"\"\"Module: ") ++ path_name fi.filepath,
           fi.module_docstring.getD (""), ("\"\"\"")]
        else [])
       ++ (if fi.imports.isEmpty then []
           else ("\n# Imports:") :: fi.imports.take 10))
    ∧ (truthyStr fi.module_docstring = true →
        ∃ rest : String, build_module_chunk fi
          = ("\"\"\"Module: ") ++ path_name fi.filepath ++ rest) := by
  constructor
  · by_cases hi : fi.imports.isEmpty <;> simp [build_module_chunk, hi]
  · intro ht
    refine ⟨("\n") ++ py_join ("\n") ((fi.module_docstring.getD (""))
      :: ("\"\"\"")
      :: (if !fi.imports.isEmpty then ("\n# Imports:") :: fi.imports.take 10
          else [])), ?_⟩
    simp [build_module_chunk, ht, py_join, String.append_assoc]

/-- Witness for C3 at a file with a docstring. -/
theorem claim_C3_witness :
    truthyStr c3_file_with_doc.module_docstring = true
    ∧ ∃ rest : String, build_module_chunk c3_file_with_doc
        = ("\"\"\"Module: ") ++ path_name c3_file_with_doc.filepath ++ rest :=
  ⟨by decide, (claim_C3 c3_file_with_doc).2 (by decide)⟩

theorem chunk_file_eq (fi : FileAnalysis) :
    chunk_file fi =
      (if truthyStr fi.module_docstring || !fi.imports.isEmpty then
        [moduleChunkOf fi] else [])
      ++ fi.functions.map (funcChunkOf fi)
      ++ fi.classes.map (classChunkOf fi) := rfl

theorem list_all_map {α β : Type} (f : α → β) (p : β → Bool) (l : List α)
    (h : ∀ a, p (f a) = true) : (l.map f).all p = true := by
  induction l with
  | nil => rfl
  | cons a t ih => simp [h a, ih]

theorem chunk_file_filter_function (fi : FileAnalysis) :
    (chunk_file fi).filter (fun c => c.type == ("function"))
      = fi.functions.map (funcChunkOf fi) := by
  rw [chunk_file_eq, List.filter_append, List.filter_append,
    filter_map_const_true (funcChunkOf fi) _ _ (fun a => rfl),
    filter_map_const_false (classChunkOf fi) _ _ (fun a => rfl)]
  cases hmod : (truthyStr fi.module_docstring || !fi.imports.isEmpty) <;>
    simp [hmod, moduleChunkOf]

theorem chunk_file_filter_class (fi : FileAnalysis) :
    (chunk_file fi).filter (fun c => c.type == ("class"))
      = fi.classes.map (classChunkOf fi) := by
  rw [chunk_file_eq, List.filter_append, List.filter_append,
    filter_map_const_false (funcChunkOf fi) _ _ (fun a => rfl),
    filter_map_const_true (classChunkOf fi) _ _ (fun a => rfl)]
  cases hmod : (truthyStr fi.module_docstring || !fi.imports.isEmpty) <;>
    simp [hmod, moduleChunkOf]

theorem chunk_file_filter_module (fi : FileAnalysis) :
    (chunk_file fi).filter (fun c => c.type == ("module"))
      = (if truthyStr fi.module_docstring || !fi.imports.isEmpty then
          [moduleChunkOf fi] else []) := by
  rw [chunk_file_eq, List.filter_append, List.filter_append,
    filter_map_const_false (funcChunkOf fi) _ _ (fun a => rfl),
    filter_map_const_false (classChunkOf fi) _ _ (fun a => rfl)]
  cases hmod : (truthyStr fi.module_docstring || !fi.imports.isEmpty) <;>
    simp [hmod, moduleChunkOf]

theorem extract_function_source_ne (source_lines : List String)
    (func : FunctionInfo) :
    (extract_function_source source_lines func != ("")) = true := by
  apply bne_empty_of_strLen_pos
  have h12 : strLen ("# Function: ") = 12 := by decide
  simp only [extract_function_source, strLen_append]
  omega

theorem extract_class_source_ne (source_lines : List String) (cls : ClassInfo) :
    (extract_class_source source_lines cls != ("")) = true := by
  apply bne_empty_of_strLen_pos
  have h9 : strLen ("# Class: ") = 9 := by decide
  by_cases hb : cls.bases.isEmpty
  · simp only [extract_class_source, hb, Bool.not_true, Bool.false_eq_true,
      if_false, strLen_append]
    omega
  · have hb2 : cls.bases.isEmpty = false := by
      cases hbe : cls.bases.isEmpty
      · rfl
      · exact absurd hbe hb
    simp only [extract_class_source, hb2, Bool.not_false, if_true, strLen_append]
    omega

theorem build_module_chunk_ne (fi : FileAnalysis)
    (hm : (truthyStr fi.module_docstring || !fi.imports.isEmpty) = true) :
    (build_module_chunk fi != ("")) = true := by
  apply bne_empty_of_strLen_pos
  by_cases ht : truthyStr fi.module_docstring = true
  · have hle := py_join_head_len ("\n")
      (("\"\"\"Module: ") ++ path_name fi.filepath)
      ((fi.module_docstring.getD (""))
        :: ("\"\"\"")
        :: (if !fi.imports.isEmpty then ("\n# Imports:") :: fi.imports.take 10
            else []))
    have h11 : strLen ("\"\"\"Module: ") = 11 := by decide
    rw [strLen_append] at hle
    simp only [build_module_chunk, ht, if_true, List.cons_append,
      List.nil_append]
    omega
  · have ht2 : truthyStr fi.module_docstring = false := by
      cases hx : truthyStr fi.module_docstring
      · rfl
      · exact absurd hx ht
    have hi : (!fi.imports.isEmpty) = true := by
      rw [ht2] at hm
      simpa using hm
    have hle := py_join_head_len ("\n") ("\n# Imports:") (fi.imports.take 10)
    have h11 : strLen ("\n# Imports:") = 11 := by decide
    simp only [build_module_chunk, ht2, Bool.false_eq_true, if_false, hi,
      if_true, List.nil_append]
    omega

/-- A file analysis whose module docstring is present but empty, for C7. -/
def c7_file : FileAnalysis :=
  { filepath := ("m.py"), functions := [], classes := [], imports := [],
    module_docstring := some (""), source := ("") }

/-- C7 as stated is false at a file whose module docstring is present but
empty (a module whose first statement is an empty string literal): the file
has a docstring and no imports, yet chunk_file emits no module chunk at all,
where the claim demands exactly one. -/
theorem claim_C7_counterexample :
    c7_file.module_docstring.isSome = true
    ∧ (chunk_file c7_file).filter (fun c => c.type == ("module")) = []
    ∧ chunk_file c7_file = [] := by
  refine ⟨rfl, rfl, rfl⟩

/-- C7 amended: chunk_file yields at least one function chunk per extracted
function and at least one class chunk per extracted class, exactly one
module chunk when the module docstring is non-empty or at least one import
exists and none otherwise, and every emitted chunk has non-empty content. -/
theorem claim_C7 (fi : FileAnalysis) :
    fi.functions.length
      ≤ ((chunk_file fi).filter (fun c => c.type == ("function"))).length
    ∧ fi.classes.length
      ≤ ((chunk_file fi).filter (fun c => c.type == ("class"))).length
    ∧ ((chunk_file fi).filter (fun c => c.type == ("module"))).length
      = (if truthyStr fi.module_docstring || !fi.imports.isEmpty then 1 else 0)
    ∧ (chunk_file fi).all (fun c => c.content != ("")) = true := by
  refine ⟨?_, ?_, ?_, ?_⟩
  · rw [chunk_file_filter_function]
    simp
  · rw [chunk_file_filter_class]
    simp
  · rw [chunk_file_filter_module]
    cases hmod : (truthyStr fi.module_docstring || !fi.imports.isEmpty) <;>
      simp [hmod]
  · rw [chunk_file_eq]
    simp only [List.all_append, Bool.and_eq_true]
    refine ⟨⟨?_, ?_⟩, ?_⟩
    · cases hmod : (truthyStr fi.module_docstring || !fi.imports.isEmpty)
      · simp [hmod]
      · simp only [hmod, if_true, List.all_cons, List.all_nil,
          Bool.and_eq_true]
        exact ⟨build_module_chunk_ne fi hmod, trivial⟩
    · exact list_all_map (funcChunkOf fi) _ fi.functions
        (fun func => extract_function_source_ne (pySplitlines fi.source) func)
    · exact list_all_map (classChunkOf fi) _ fi.classes
        (fun cls => extract_class_source_ne (pySplitlines fi.source) cls)

/-- C8: each function chunk content is the header comment naming the
function and its parameters followed by the window of source lines from
0-based index lineno - 1 up to min (lineno - 1 + 20, line count); each class
chunk content is the analogous header, additionally listing the base types
when non-empty and the method names, followed by the 30-line window. -/
theorem claim_C8 (fi : FileAnalysis) :
    ((chunk_file fi).filter (fun c => c.type == ("function"))).map
        (fun c => c.content)
      = fi.functions.map (fun func =>
          ("# Function: ") ++ func.name ++ ("(") ++ py_join (", ") func.args
            ++ (")\n")
            ++ py_join ("\n") (((pySplitlines fi.source).drop (func.lineno - 1)).take
              (min (func.lineno - 1 + 20) (pySplitlines fi.source).length
                - (func.lineno - 1))))
    ∧ ((chunk_file fi).filter (fun c => c.type == ("class"))).map
        (fun c => c.content)
      = fi.classes.map (fun cls =>
          (if !cls.bases.isEmpty then
            ("# Class: ") ++ cls.name ++ (" (inherits from: ")
              ++ py_join (", ") cls.bases ++ (")")
          else ("# Class: ") ++ cls.name)
            ++ ("\n# Methods: ") ++ py_join (", ") cls.methods ++ ("\n")
            ++ py_join ("\n") (((pySplitlines fi.source).drop (cls.lineno - 1)).take
              (min (cls.lineno - 1 + 30) (pySplitlines fi.source).length
                - (cls.lineno - 1)))) := by
  constructor
  · rw [chunk_file_filter_function, List.map_map]
    rfl
  · rw [chunk_file_filter_class, List.map_map]
    rfl

/-- Witness for C4 at a concrete project over the mock adapters. -/
theorem claim_C4_witness :
    (generate_readme (mockPorts (fun _ => 0)
        { vs := freshMockVectorStore, emb := freshMockEmbedding 1,
          llm := freshMockLLM ("r") }) cexPinfo []).trace = []
    ∧ (generate_readme (mockPorts (fun _ => 0)
        { vs := freshMockVectorStore, emb := freshMockEmbedding 1,
          llm := freshMockLLM ("r") }) cexPinfo []).readme ≠ ("")
    ∧ ∃ a b : String, (generate_readme (mockPorts (fun _ => 0)
        { vs := freshMockVectorStore, emb := freshMockEmbedding 1,
          llm := freshMockLLM ("r") }) cexPinfo []).readme
        = a ++ cexPinfo.project_name ++ b :=
  claim_C4 (mockPorts (fun _ => 0)
    { vs := freshMockVectorStore, emb := freshMockEmbedding 1,
      llm := freshMockLLM ("r") }) cexPinfo

/-- Witness for C7 at a concrete file analysis with one import. -/
theorem claim_C7_witness :
    c3_file.functions.length
      ≤ ((chunk_file c3_file).filter (fun c => c.type == ("function"))).length
    ∧ c3_file.classes.length
      ≤ ((chunk_file c3_file).filter (fun c => c.type == ("class"))).length
    ∧ ((chunk_file c3_file).filter (fun c => c.type == ("module"))).length
      = (if truthyStr c3_file.module_docstring || !c3_file.imports.isEmpty
         then 1 else 0)
    ∧ (chunk_file c3_file).all (fun c => c.content != ("")) = true :=
  claim_C7 c3_file

/-- A file analysis with one function and one class, for the C8 witness. -/
def c8_file : FileAnalysis :=
  { filepath := ("pkg/sample.py"),
    functions := [{ name := ("add"), args := [("a"), ("b")], docstring := (""),
                    lineno := 2, is_async := false }],
    classes := [{ name := ("Acc"), bases := [("Base")], methods := [("run")],
                  docstring := (""), lineno := 5 }],
    imports := [], module_docstring := none,
    source := ("import os\ndef add(a, b):\n    return a + b\n\nclass Acc(Base):\n    def run(self):\n        pass\n") }

/-- Witness for C8 at a concrete file analysis. -/
theorem claim_C8_witness :
    ((chunk_file c8_file).filter (fun c => c.type == ("function"))).map
        (fun c => c.content)
      = c8_file.functions.map (fun func =>
          ("# Function: ") ++ func.name ++ ("(") ++ py_join (", ") func.args
            ++ (")\n")
            ++ py_join ("\n") (((pySplitlines c8_file.source).drop (func.lineno - 1)).take
              (min (func.lineno - 1 + 20) (pySplitlines c8_file.source).length
                - (func.lineno - 1))))
    ∧ ((chunk_file c8_file).filter (fun c => c.type == ("class"))).map
        (fun c => c.content)
      = c8_file.classes.map (fun cls =>
          (if !cls.bases.isEmpty then
            ("# Class: ") ++ cls.name ++ (" (inherits from: ")
              ++ py_join (", ") cls.bases ++ (")")
          else ("# Class: ") ++ cls.name)
            ++ ("\n# Methods: ") ++ py_join (", ") cls.methods ++ ("\n")
            ++ py_join ("\n") (((pySplitlines c8_file.source).drop (cls.lineno - 1)).take
              (min (cls.lineno - 1 + 30) (pySplitlines c8_file.source).length
                - (cls.lineno - 1)))) :=
  claim_C8 c8_file
